import Mathlib

/-!
Shallow embedding of `src/api/savedata.js` (the `handler` serverless
function of the carepro-accommodation repository) and proofs about it.

The handler reads/writes a JSON file in a GitHub repository via the
GitHub Content API.  We model:
  * JSON values (`Json`), with JavaScript truthiness;
  * `JSON.stringify(v, null, 2)` (pretty printing with 2-space indent);
  * UTF-8 encoding, base64 encoding (`Buffer.from(s).toString('base64')`)
    and decoding, and `encodeURIComponent`;
  * the environment (`Env`), the inbound request (`Req`), the outbound
    world (`World`: the three possible upstream responses), the outbound
    calls the handler issues (`OutCall`) and its HTTP response
    (`HttpResponse`).
The JavaScript builtin `JSON.parse` used on the GET path is passed to the
embedded handler as an oracle `parse : String → Option Json`; the
`.json()` results of the metadata and PUT responses are carried by the
`World` (with `none` meaning the body was not JSON, which in the source
throws and lands in the catch-all).
-/

/-- Model of a JavaScript JSON value (no `undefined`: absence of an object
field is represented by `Option` at use sites). -/
inductive Json where
  | null : Json
  | bool : Bool → Json
  | num : Int → Json
  | str : String → Json
  | arr : List Json → Json
  | obj : List (String × Json) → Json
deriving Repr

/-- JavaScript truthiness of a JSON value: `null`, `false`, `0` and `""`
are falsy; arrays and objects are truthy. -/
def Json.truthy : Json → Bool
  | .null => false
  | .bool b => b
  | .num n => n ≠ 0
  | .str s => s ≠ ""
  | .arr _ => true
  | .obj _ => true

/-- Property access `v.k` on a JSON value: the first binding of field `k`
when `v` is an object, `none` (JavaScript `undefined`) otherwise. -/
def Json.getField (v : Json) (k : String) : Option Json :=
  match v with
  | .obj fields => (fields.find? (fun p => p.1 = k)).map (fun p => p.2)
  | _ => none

/-- JavaScript truthiness of a possibly-`undefined` value. -/
def jsTruthyOpt : Option Json → Bool
  | none => false
  | some v => v.truthy

/-- Truthiness of an environment variable (a string or `undefined`):
`undefined` and the empty string are falsy. -/
def envTruthy : Option String → Bool
  | none => false
  | some s => s ≠ ""

/-- JavaScript `v || d` for a string-or-undefined `v`: the default `d` is
used when `v` is `undefined` or the empty string. -/
def jsOr (v : Option String) (d : String) : String :=
  match v with
  | none => d
  | some s => if s = "" then d else s

/-- Lowercase hexadecimal digit (used by `\uXXXX` escapes, as
`JSON.stringify` emits them in lowercase). -/
def hexDigitLower (n : Nat) : Char :=
  if n < 10 then Char.ofNat (48 + n) else Char.ofNat (87 + n)

/-- Uppercase hexadecimal digit (used by `encodeURIComponent`, which
emits `%XX` in uppercase). -/
def hexDigitUpper (n : Nat) : Char :=
  if n < 10 then Char.ofNat (48 + n) else Char.ofNat (55 + n)

/-- Four-digit lowercase hexadecimal rendering of a code point below
0x10000, for `\uXXXX` string escapes. -/
def hex4 (n : Nat) : String :=
  String.mk [hexDigitLower ((n / 4096) % 16), hexDigitLower ((n / 256) % 16),
             hexDigitLower ((n / 16) % 16), hexDigitLower (n % 16)]

/-- Escaping of one character inside a JSON string literal, following
`JSON.stringify`. -/
def escapeChar (c : Char) : String :=
  if c = '"' then "\\\""
  else if c = '\\' then "\\\\"
  else if c = '\n' then "\\n"
  else if c = '\r' then "\\r"
  else if c = '\t' then "\\t"
  else if c.toNat = 8 then "\\b"
  else if c.toNat = 12 then "\\f"
  else if c.toNat < 32 then "\\u" ++ hex4 c.toNat
  else String.singleton c

/-- JSON string literal for `s`, with `JSON.stringify` escaping. -/
def quoteStr (s : String) : String :=
  "\"" ++ String.join (s.data.map escapeChar) ++ "\""

mutual

/-- Model of `JSON.stringify(v, null, 2)`: pretty printing with two-space
indentation; `ind` is the indentation accumulated so far.  Empty arrays
and objects render as `[]` and `\x7b\x7d` on one line, as in JavaScript. -/
def stringifyPretty (ind : String) : Json → String
  | .null => "null"
  | .bool true => "true"
  | .bool false => "false"
  | .num n => toString n
  | .str s => quoteStr s
  | .arr [] => "[]"
  | .arr (x :: xs) =>
      "[\n" ++ stringifyItems (ind ++ "  ") (x :: xs) ++ "\n" ++ ind ++ "]"
  | .obj [] => "\x7b\x7d"
  | .obj (f :: fs) =>
      "\x7b\n" ++ stringifyFields (ind ++ "  ") (f :: fs) ++ "\n" ++ ind ++ "\x7d"

/-- Comma/newline-separated array items at indentation `ind`. -/
def stringifyItems (ind : String) : List Json → String
  | [] => ""
  | [x] => ind ++ stringifyPretty ind x
  | x :: y :: ys => ind ++ stringifyPretty ind x ++ ",\n" ++ stringifyItems ind (y :: ys)

/-- Comma/newline-separated object fields at indentation `ind`. -/
def stringifyFields (ind : String) : List (String × Json) → String
  | [] => ""
  | [(k, v)] => ind ++ quoteStr k ++ ": " ++ stringifyPretty ind v
  | (k, v) :: g :: gs =>
      ind ++ quoteStr k ++ ": " ++ stringifyPretty ind v ++ ",\n" ++ stringifyFields ind (g :: gs)

end

/-- Model of `JSON.stringify(v, null, 2)` at the top level (no enclosing
indentation). -/
def stringify2 (v : Json) : String := stringifyPretty "" v

/-- UTF-8 encoding of one character, as a list of byte values. -/
def charUtf8 (c : Char) : List Nat :=
  let n := c.toNat
  if n < 128 then [n]
  else if n < 2048 then [192 + n / 64, 128 + n % 64]
  else if n < 65536 then [224 + n / 4096, 128 + (n / 64) % 64, 128 + n % 64]
  else [240 + n / 262144, 128 + (n / 4096) % 64, 128 + (n / 64) % 64, 128 + n % 64]

/-- UTF-8 encoding of a string, as a list of byte values (what
`Buffer.from(s)` holds). -/
def utf8Bytes (s : String) : List Nat :=
  s.data.flatMap charUtf8

/-- The base64 alphabet. -/
def base64Alphabet : String :=
  "ABCDEFGHIJKLMNOPQRSTUVWXYZabcdefghijklmnopqrstuvwxyz0123456789+/"

/-- The base64 digit for a 6-bit value. -/
def b64Digit (n : Nat) : Char :=
  (base64Alphabet.data.getD n 'A')

/-- Base64 encoding of a byte list with `=` padding, as produced by
`Buffer.prototype.toString('base64')`. -/
def b64EncodeBytes : List Nat → String
  | [] => ""
  | [a] =>
      String.mk [b64Digit (a / 4), b64Digit ((a % 4) * 16)] ++ "=="
  | [a, b] =>
      String.mk [b64Digit (a / 4), b64Digit ((a % 4) * 16 + b / 16),
                 b64Digit ((b % 16) * 4)] ++ "="
  | a :: b :: c :: rest =>
      String.mk [b64Digit (a / 4), b64Digit ((a % 4) * 16 + b / 16),
                 b64Digit ((b % 16) * 4 + c / 64), b64Digit (c % 64)]
        ++ b64EncodeBytes rest

/-- Model of `Buffer.from(s).toString('base64')`. -/
def toBase64 (s : String) : String :=
  b64EncodeBytes (utf8Bytes s)

/-- Value of a base64 digit, `none` for a character outside the
alphabet. -/
def b64DigitVal (c : Char) : Option Nat :=
  (base64Alphabet.data.indexOf c) |> fun i =>
    if i < 64 then some i else none

/-- Base64 decoding of a character list (with optional `=` padding on the
final group), returning the byte values, or `none` for invalid input. -/
def b64DecodeChars : List Char → Option (List Nat)
  | [] => some []
  | [a, b, '=', '='] => do
      let x ← b64DigitVal a
      let y ← b64DigitVal b
      if y % 16 = 0 then pure [x * 4 + y / 16] else none
  | [a, b, c, '='] => do
      let x ← b64DigitVal a
      let y ← b64DigitVal b
      let z ← b64DigitVal c
      if z % 4 = 0 then pure [x * 4 + y / 16, (y % 16) * 16 + z / 4] else none
  | a :: b :: c :: d :: rest => do
      let x ← b64DigitVal a
      let y ← b64DigitVal b
      let z ← b64DigitVal c
      let w ← b64DigitVal d
      let tail ← b64DecodeChars rest
      pure ([x * 4 + y / 16, (y % 16) * 16 + z / 4, (z % 4) * 64 + w] ++ tail)
  | _ => none

/-- Base64 decoding of a string to byte values. -/
def b64Decode (s : String) : Option (List Nat) :=
  b64DecodeChars s.data

/-- Encoding of one byte by `encodeURIComponent`: unreserved characters
(letters, digits, `-`, `_`, `.`, `!`, `~`, `*`, quote, parentheses) pass
through, every other byte becomes `%XX` in uppercase hex. -/
def encodeURIByte (n : Nat) : String :=
  if (65 ≤ n ∧ n ≤ 90) ∨ (97 ≤ n ∧ n ≤ 122) ∨ (48 ≤ n ∧ n ≤ 57)
      ∨ n = 45 ∨ n = 95 ∨ n = 46 ∨ n = 33 ∨ n = 126 ∨ n = 42
      ∨ n = 39 ∨ n = 40 ∨ n = 41 then
    String.singleton (Char.ofNat n)
  else
    "%" ++ String.mk [hexDigitUpper (n / 16), hexDigitUpper (n % 16)]

/-- Model of JavaScript `encodeURIComponent`. -/
def encodeURIComponent (s : String) : String :=
  String.join ((utf8Bytes s).map encodeURIByte)

/-- Process environment, as read by the handler (each variable is a
string or `undefined`). -/
structure Env where
  GITHUB_TOKEN : Option String
  GITHUB_REPO : Option String
  GITHUB_FILE_PATH : Option String
  BRANCH : Option String
deriving Repr, DecidableEq

/-- Inbound HTTP request: the method, the parsed JSON body (used on
POST), and the optional `message` query parameter
(`req.query?.message`). -/
structure Req where
  method : String
  body : Json
  queryMessage : Option String
deriving Repr

/-- An upstream HTTP response as observed through the Fetch API: status
code, status text, body text, the result of `.json()` (`none` when the
body is not JSON, in which case the source's `await r.json()` throws),
and the message of that thrown error. -/
structure FetchResp where
  status : Nat
  statusText : String
  text : String
  json : Option Json
  jsonErr : String
deriving Repr

/-- Fetch-API `Response.ok`: status in the inclusive range 200–299. -/
def FetchResp.ok (r : FetchResp) : Bool :=
  200 ≤ r.status && r.status ≤ 299

/-- The outbound world: the responses the three possible upstream calls
would receive (raw-content GET, metadata GET, content PUT). -/
structure World where
  getResp : FetchResp
  metaResp : FetchResp
  putResp : FetchResp
deriving Repr

/-- An outbound HTTP call issued by the handler. -/
inductive OutCall where
  | getRaw : String → List (String × String) → OutCall
  | getMeta : String → List (String × String) → OutCall
  | put : String → List (String × String) → Json → OutCall
deriving Repr

/-- Whether an outbound call is the content PUT. -/
def OutCall.isPut : OutCall → Bool
  | .put _ _ _ => true
  | _ => false

/-- The HTTP response produced by the handler: status, JSON body, and
headers set via `res.setHeader`. -/
structure HttpResponse where
  status : Nat
  body : Json
  headers : List (String × String)
deriving Repr

/-- Headers of the raw-content GET (`Accept: application/vnd.github.v3.raw`). -/
def rawAcceptHeaders (tokenS : String) : List (String × String) :=
  [("Authorization", "token " ++ tokenS), ("Accept", "application/vnd.github.v3.raw")]

/-- Headers of the metadata GET (`Accept: application/vnd.github.v3+json`). -/
def jsonAcceptHeaders (tokenS : String) : List (String × String) :=
  [("Authorization", "token " ++ tokenS), ("Accept", "application/vnd.github.v3+json")]

/-- Headers of the content PUT. -/
def putReqHeaders (tokenS : String) : List (String × String) :=
  [("Authorization", "token " ++ tokenS), ("Accept", "application/vnd.github.v3+json"),
   ("Content-Type", "application/json")]

/-- The `apiBase` URL built by the handler. -/
def apiBase (repoS filePath branch : String) : String :=
  "https://api.github.com/repos/" ++ repoS ++ "/contents/"
    ++ encodeURIComponent filePath ++ "?ref=" ++ encodeURIComponent branch

/-- The `putUrl` built by the handler (no `ref` query). -/
def putUrl (repoS filePath : String) : String :=
  "https://api.github.com/repos/" ++ repoS ++ "/contents/" ++ encodeURIComponent filePath

/-- The `putBody` object built by the handler: commit message (the
`message` query parameter, defaulted through `||`), base64 content,
branch, and — via `if (sha) putBody.sha = sha` — the `sha` field exactly
when the metadata `sha` is truthy. -/
def putBody (branch : String) (queryMessage : Option String) (b64 : String)
    (sha : Option Json) : Json :=
  .obj ([("message", .str (jsOr queryMessage "Update data.json via app")),
         ("content", .str b64),
         ("branch", .str branch)]
        ++ (if jsTruthyOpt sha then [("sha", sha.getD .null)] else []))

/-- Shallow embedding of the default export of `src/api/savedata.js`.
Returns the HTTP response together with the list of outbound calls
issued, in order.  `parse` is the `JSON.parse` oracle used on the GET
path. -/
def handler (env : Env) (req : Req) (world : World)
    (parse : String → Option Json) : HttpResponse × List OutCall :=
  let token := env.GITHUB_TOKEN
  let repo := env.GITHUB_REPO
  let filePath := jsOr env.GITHUB_FILE_PATH "data.json"
  let branch := jsOr env.BRANCH "main"
  if ¬ envTruthy token ∨ ¬ envTruthy repo then
    (⟨500, .obj [("error", .str "Missing GITHUB_TOKEN or GITHUB_REPO environment variables")], []⟩, [])
  else
    let tokenS := token.getD ""
    let repoS := repo.getD ""
    let base := apiBase repoS filePath branch
    if req.method = "GET" then
      let r := world.getResp
      let calls := [OutCall.getRaw base (rawAcceptHeaders tokenS)]
      if ¬ r.ok then
        (⟨r.status, .obj [("error", .str "GitHub GET failed"), ("status", .str r.statusText)], []⟩, calls)
      else
        match parse r.text with
        | some v => (⟨200, v, []⟩, calls)
        | none =>
            (⟨200, .obj [("raw", .str r.text)], []⟩, calls)
    else if req.method = "POST" then
      let metaR := world.metaResp
      let calls1 := [OutCall.getMeta base (jsonAcceptHeaders tokenS)]
      if ¬ metaR.ok then
        (⟨metaR.status, .obj [("error", .str "Could not fetch file metadata"), ("status", .str metaR.statusText)], []⟩, calls1)
      else
        match metaR.json with
        | none =>
            (⟨500, .obj [("error", .str "Server error"), ("detail", .str metaR.jsonErr)], []⟩, calls1)
        | some meta =>
            let sha := meta.getField "sha"
            let contentStr := stringify2 req.body
            let b64 := toBase64 contentStr
            let pBody := putBody branch req.queryMessage b64 sha
            let calls2 := calls1 ++ [OutCall.put (putUrl repoS filePath) (putReqHeaders tokenS) pBody]
            let putR := world.putResp
            match putR.json with
            | none =>
                (⟨500, .obj [("error", .str "Server error"), ("detail", .str putR.jsonErr)], []⟩, calls2)
            | some j =>
                if ¬ putR.ok then
                  (⟨putR.status, .obj [("error", .str "GitHub PUT failed"), ("detail", j)], []⟩, calls2)
                else
                  (⟨200, .obj [("message", .str "âœ… Data saved to GitHub"), ("result", j)], []⟩, calls2)
    else
      (⟨405, .obj [("error", .str "Method not allowed")],
         [("Allow", "GET,POST")]⟩, [])

/-- A placeholder upstream response (status 200, empty body, body not
JSON), used in concrete witnesses for calls the exercised path never
makes. -/
def emptyResp : FetchResp := ⟨200, "", "", none, ""⟩

/-- A placeholder world built from `emptyResp`. -/
def emptyWorld : World := ⟨emptyResp, emptyResp, emptyResp⟩

/-- A `JSON.parse` oracle that fails on every input, used in concrete
witnesses where the GET parse branch is not exercised. -/
def noParse : String → Option Json := fun _ => none

/-- A `JSON.parse` oracle that recognises exactly the text `[1]`, used in
concrete witnesses for the GET path. -/
def parse1 : String → Option Json :=
  fun s => if s = "[1]" then some (Json.arr [Json.num 1]) else none

/-- The metadata GET call the handler issues on POST, in terms of the raw
environment values. -/
def metaCallOf (tok rep fp br : Option String) : OutCall :=
  .getMeta (apiBase (rep.getD "") (jsOr fp "data.json") (jsOr br "main"))
    (jsonAcceptHeaders (tok.getD ""))

/-- The content PUT call the handler issues on POST once metadata JSON
`mj` was obtained, in terms of the raw environment values. -/
def putCallOf (tok rep fp br : Option String) (qm : Option String) (body : Json)
    (mj : Json) : OutCall :=
  .put (putUrl (rep.getD "") (jsOr fp "data.json")) (putReqHeaders (tok.getD ""))
    (putBody (jsOr br "main") qm (toBase64 (stringify2 body)) (mj.getField "sha"))

/-- A world whose metadata fetch returns 404 Not Found (a JSON error
body), used for concrete POST counterexamples. -/
def w404 : World :=
  ⟨emptyResp, ⟨404, "Not Found", "", some (Json.obj [("message", Json.str "Not Found")]), ""⟩,
   emptyResp⟩

/-- An upstream 404 response carrying a recognisable error payload text,
used for concrete GET counterexamples. -/
def g404 : FetchResp := ⟨404, "Not Found", "upstream-payload", none, ""⟩

mutual

/-- Whether the string `s` occurs as a string leaf anywhere inside a JSON
value (used to state that a response body does not carry an upstream
payload). -/
def Json.containsStrLeaf (s : String) : Json → Bool
  | .str t => t = s
  | .arr xs => Json.listContainsStrLeaf s xs
  | .obj fs => Json.fieldsContainStrLeaf s fs
  | _ => false

/-- `containsStrLeaf` over a list of values. -/
def Json.listContainsStrLeaf (s : String) : List Json → Bool
  | [] => false
  | x :: xs => Json.containsStrLeaf s x || Json.listContainsStrLeaf s xs

/-- `containsStrLeaf` over object fields (keys are not searched). -/
def Json.fieldsContainStrLeaf (s : String) : List (String × Json) → Bool
  | [] => false
  | (_, v) :: fs => Json.containsStrLeaf s v || Json.fieldsContainStrLeaf s fs

end

/-- A world whose metadata fetch succeeds with revision token `abc123`
and whose PUT succeeds, used in concrete POST examples. -/
def wOK : World :=
  ⟨emptyResp, ⟨200, "OK", "", some (Json.obj [("sha", Json.str "abc123")]), ""⟩,
   ⟨200, "OK", "", some (Json.obj []), ""⟩⟩

/-- Whether an outbound call is a PUT whose body carries commit message
`s`. -/
def putMessageIs (s : String) : OutCall → Bool
  | .put _ _ pb =>
      match pb.getField "message" with
      | some (Json.str t) => t = s
      | _ => false
  | _ => false

/-- Field `message` of the PUT body: the query parameter defaulted
through `||`. -/
theorem putBody_getField_message (branch : String) (qm : Option String) (b64 : String)
    (sha : Option Json) :
    (putBody branch qm b64 sha).getField "message"
      = some (.str (jsOr qm "Update data.json via app")) := by
  unfold putBody
  cases h : jsTruthyOpt sha <;> simp [h] <;> rfl

/-- Field `content` of the PUT body: the base64 content. -/
theorem putBody_getField_content (branch : String) (qm : Option String) (b64 : String)
    (sha : Option Json) :
    (putBody branch qm b64 sha).getField "content" = some (.str b64) := by
  unfold putBody
  cases h : jsTruthyOpt sha <;> simp [h] <;> rfl

/-- Field `branch` of the PUT body: the target branch. -/
theorem putBody_getField_branch (branch : String) (qm : Option String) (b64 : String)
    (sha : Option Json) :
    (putBody branch qm b64 sha).getField "branch" = some (.str branch) := by
  unfold putBody
  cases h : jsTruthyOpt sha <;> simp [h] <;> rfl

/-- Field `sha` of the PUT body: present exactly when the metadata `sha`
is truthy, and then equal to it. -/
theorem putBody_getField_sha (branch : String) (qm : Option String) (b64 : String)
    (sha : Option Json) :
    (putBody branch qm b64 sha).getField "sha"
      = if jsTruthyOpt sha then some (sha.getD .null) else none := by
  unfold putBody
  cases h : jsTruthyOpt sha <;> simp [h] <;> rfl

/-- Claim C5: for every request (any method) where the access token or the
repository identifier is missing from configuration, the handler responds
with status 500 and makes zero outbound calls. -/
theorem claimC5 (tok rep fp br : Option String) (req : Req) (w : World)
    (parse : String → Option Json) (h : tok = none ∨ rep = none) :
    handler ⟨tok, rep, fp, br⟩ req w parse =
      (⟨500, Json.obj [("error",
          Json.str "Missing GITHUB_TOKEN or GITHUB_REPO environment variables")], []⟩, []) := by
  unfold handler
  rcases h with h | h <;> subst h <;> simp [envTruthy]

/-- Witness for C5 at a concrete input with the token missing. -/
theorem claimC5_witness :
    ((none : Option String) = none ∨ (some "r" : Option String) = none) ∧
    handler ⟨none, some "r", none, none⟩ ⟨"GET", Json.null, none⟩ emptyWorld noParse =
      (⟨500, Json.obj [("error",
          Json.str "Missing GITHUB_TOKEN or GITHUB_REPO environment variables")], []⟩, []) :=
  ⟨Or.inl rfl, claimC5 none (some "r") none none ⟨"GET", Json.null, none⟩ emptyWorld noParse (Or.inl rfl)⟩

/-- Counterexample to C9 as stated: with the access token missing, a
DELETE request is answered with status 500 (the configuration check runs
first), not 405. -/
theorem claimC9_counterexample :
    (handler ⟨none, some "r", none, none⟩ ⟨"DELETE", Json.null, none⟩ emptyWorld noParse).1.status
        = 500 ∧
    ¬ (handler ⟨none, some "r", none, none⟩ ⟨"DELETE", Json.null, none⟩ emptyWorld noParse).1.status
        = 405 := by
  constructor
  · rfl
  · decide

/-- Claim C9 (amended): under valid configuration (truthy access token and
repository identifier), every request whose method is neither GET nor POST
is answered with status 405, the response header `Allow: GET,POST`, and no
outbound calls. -/
theorem claimC9_amended (tok rep fp br : Option String) (body : Json) (qm : Option String)
    (method : String) (w : World) (parse : String → Option Json)
    (hT : envTruthy tok = true) (hR : envTruthy rep = true)
    (hG : method ≠ "GET") (hP : method ≠ "POST") :
    handler ⟨tok, rep, fp, br⟩ ⟨method, body, qm⟩ w parse =
      (⟨405, Json.obj [("error", Json.str "Method not allowed")], [("Allow", "GET,POST")]⟩, []) := by
  unfold handler
  simp [hT, hR, hG, hP]

/-- Witness for the amended C9 at a concrete DELETE request. -/
theorem claimC9_witness :
    envTruthy (some "t") = true ∧ envTruthy (some "r") = true ∧
    ("DELETE" : String) ≠ "GET" ∧ ("DELETE" : String) ≠ "POST" ∧
    handler ⟨some "t", some "r", none, none⟩ ⟨"DELETE", Json.null, none⟩ emptyWorld noParse =
      (⟨405, Json.obj [("error", Json.str "Method not allowed")], [("Allow", "GET,POST")]⟩, []) :=
  ⟨by decide, by decide, by decide, by decide,
   claimC9_amended (some "t") (some "r") none none Json.null none "DELETE" emptyWorld noParse
     (by decide) (by decide) (by decide) (by decide)⟩

/-- Claim C3: for every GET request under valid configuration whose
upstream fetch succeeds, a response text that parses as JSON yields status
200 with the parsed value as the body, and a text that fails to parse
yields status 200 with an object whose single field `raw` holds the exact
original text. -/
theorem claimC3 (tok rep fp br : Option String) (body : Json) (qm : Option String)
    (g m p : FetchResp) (parse : String → Option Json)
    (hT : envTruthy tok = true) (hR : envTruthy rep = true) (hok : g.ok = true) :
    (∀ v, parse g.text = some v →
        (handler ⟨tok, rep, fp, br⟩ ⟨"GET", body, qm⟩ ⟨g, m, p⟩ parse).1 = ⟨200, v, []⟩) ∧
    (parse g.text = none →
        (handler ⟨tok, rep, fp, br⟩ ⟨"GET", body, qm⟩ ⟨g, m, p⟩ parse).1
          = ⟨200, Json.obj [("raw", Json.str g.text)], []⟩) := by
  constructor
  · intro v hv
    simp [handler, hT, hR, hok, hv]
  · intro hv
    simp [handler, hT, hR, hok, hv]

/-- Witness for C3: a successful GET whose body `[1]` parses, and the same
configuration with a parse oracle that fails, checked at a concrete
input. -/
theorem claimC3_witness :
    envTruthy (some "t") = true ∧ envTruthy (some "r") = true ∧
    FetchResp.ok ⟨200, "OK", "[1]", none, ""⟩ = true ∧
    ((∀ v, parse1 "[1]" = some v →
        (handler ⟨some "t", some "r", none, none⟩ ⟨"GET", Json.null, none⟩
            ⟨⟨200, "OK", "[1]", none, ""⟩, emptyResp, emptyResp⟩ parse1).1 = ⟨200, v, []⟩) ∧
     (parse1 "[1]" = none →
        (handler ⟨some "t", some "r", none, none⟩ ⟨"GET", Json.null, none⟩
            ⟨⟨200, "OK", "[1]", none, ""⟩, emptyResp, emptyResp⟩ parse1).1
          = ⟨200, Json.obj [("raw", Json.str "[1]")], []⟩)) :=
  ⟨by decide, by decide, by decide,
   claimC3 (some "t") (some "r") none none Json.null none
     ⟨200, "OK", "[1]", none, ""⟩ emptyResp emptyResp parse1 (by decide) (by decide) (by decide)⟩

/-- POST path, metadata fetch not ok: the handler relays the metadata
status with a fixed envelope and issues only the metadata call. -/
theorem handler_post_metaFail {tok rep fp br : Option String} {body : Json}
    {qm : Option String} {g m p : FetchResp} {parse : String → Option Json}
    (hT : envTruthy tok = true) (hR : envTruthy rep = true) (hok : m.ok = false) :
    handler ⟨tok, rep, fp, br⟩ ⟨"POST", body, qm⟩ ⟨g, m, p⟩ parse =
      (⟨m.status, Json.obj [("error", Json.str "Could not fetch file metadata"),
          ("status", Json.str m.statusText)], []⟩,
       [metaCallOf tok rep fp br]) := by
  simp [handler, metaCallOf, hT, hR, hok]

/-- POST path, metadata fetch ok but its body is not JSON: `metaR.json()`
throws, the catch-all answers 500, and only the metadata call was
issued. -/
theorem handler_post_metaJsonNone {tok rep fp br : Option String} {body : Json}
    {qm : Option String} {g m p : FetchResp} {parse : String → Option Json}
    (hT : envTruthy tok = true) (hR : envTruthy rep = true)
    (hok : m.ok = true) (hj : m.json = none) :
    handler ⟨tok, rep, fp, br⟩ ⟨"POST", body, qm⟩ ⟨g, m, p⟩ parse =
      (⟨500, Json.obj [("error", Json.str "Server error"), ("detail", Json.str m.jsonErr)], []⟩,
       [metaCallOf tok rep fp br]) := by
  simp [handler, metaCallOf, hT, hR, hok, hj]

/-- POST path, metadata fetch ok with JSON `mj`: the handler issues
exactly the metadata call followed by the content PUT. -/
theorem handler_post_calls_metaOk {tok rep fp br : Option String} {body : Json}
    {qm : Option String} {g m p : FetchResp} {parse : String → Option Json} {mj : Json}
    (hT : envTruthy tok = true) (hR : envTruthy rep = true)
    (hok : m.ok = true) (hj : m.json = some mj) :
    (handler ⟨tok, rep, fp, br⟩ ⟨"POST", body, qm⟩ ⟨g, m, p⟩ parse).2 =
      [metaCallOf tok rep fp br, putCallOf tok rep fp br qm body mj] := by
  cases hpj : p.json with
  | none => simp [handler, metaCallOf, putCallOf, hT, hR, hok, hj, hpj]
  | some j =>
      by_cases hpok : p.ok = true <;>
        simp [handler, metaCallOf, putCallOf, hT, hR, hok, hj, hpj, hpok]

/-- POST path, metadata fetch ok with JSON and a parseable PUT response:
the handler's HTTP response mirrors the PUT outcome. -/
theorem handler_post_putResult {tok rep fp br : Option String} {body : Json}
    {qm : Option String} {g m p : FetchResp} {parse : String → Option Json} {mj j : Json}
    (hT : envTruthy tok = true) (hR : envTruthy rep = true)
    (hok : m.ok = true) (hj : m.json = some mj) (hpj : p.json = some j) :
    (handler ⟨tok, rep, fp, br⟩ ⟨"POST", body, qm⟩ ⟨g, m, p⟩ parse).1 =
      (if p.ok = true then
        ⟨200, Json.obj [("message", Json.str "âœ… Data saved to GitHub"), ("result", j)], []⟩
       else
        ⟨p.status, Json.obj [("error", Json.str "GitHub PUT failed"), ("detail", j)], []⟩) := by
  by_cases hpok : p.ok = true <;>
    simp [handler, hT, hR, hok, hj, hpj, hpok]

/-- Claim C2: on POST under valid configuration the metadata fetch is the
first outbound call; a failed metadata fetch means the handler answers
with its status and no PUT is ever issued; a successful one means the PUT
carries the revision token obtained from the metadata JSON. -/
theorem claimC2 (tok rep fp br : Option String) (body : Json) (qm : Option String)
    (g m p : FetchResp) (parse : String → Option Json)
    (hT : envTruthy tok = true) (hR : envTruthy rep = true) :
    (handler ⟨tok, rep, fp, br⟩ ⟨"POST", body, qm⟩ ⟨g, m, p⟩ parse).2.head?
        = some (metaCallOf tok rep fp br) ∧
    (m.ok = false →
        (handler ⟨tok, rep, fp, br⟩ ⟨"POST", body, qm⟩ ⟨g, m, p⟩ parse).1.status = m.status ∧
        (handler ⟨tok, rep, fp, br⟩ ⟨"POST", body, qm⟩ ⟨g, m, p⟩ parse).2
          = [metaCallOf tok rep fp br]) ∧
    (m.ok = true → ∀ mj, m.json = some mj → ∀ v, mj.getField "sha" = some v → v.truthy = true →
        (handler ⟨tok, rep, fp, br⟩ ⟨"POST", body, qm⟩ ⟨g, m, p⟩ parse).2
          = [metaCallOf tok rep fp br, putCallOf tok rep fp br qm body mj] ∧
        (putBody (jsOr br "main") qm (toBase64 (stringify2 body)) (mj.getField "sha")).getField "sha"
          = some v) := by
  refine ⟨?_, ?_, ?_⟩
  · cases hok : m.ok with
    | false => rw [handler_post_metaFail hT hR hok]; rfl
    | true =>
        cases hj : m.json with
        | none => rw [handler_post_metaJsonNone hT hR hok hj]; rfl
        | some mj => rw [handler_post_calls_metaOk hT hR hok hj]; rfl
  · intro hok
    rw [handler_post_metaFail hT hR hok]
    exact ⟨rfl, rfl⟩
  · intro hok mj hj v hv htr
    refine ⟨handler_post_calls_metaOk hT hR hok hj, ?_⟩
    rw [putBody_getField_sha, hv]
    simp [jsTruthyOpt, htr]

/-- Witness for C2 at a concrete POST whose metadata fetch succeeds with
revision token `abc123`. -/
theorem claimC2_witness :
    envTruthy (some "t") = true ∧ envTruthy (some "r") = true ∧
    ((handler ⟨some "t", some "r", none, none⟩ ⟨"POST", Json.obj [("rooms", Json.num 3)], none⟩
        ⟨emptyResp, ⟨200, "OK", "", some (Json.obj [("sha", Json.str "abc123")]), ""⟩,
         ⟨201, "Created", "", some (Json.obj []), ""⟩⟩ noParse).2.head?
      = some (metaCallOf (some "t") (some "r") none none) ∧
    (FetchResp.ok ⟨200, "OK", "", some (Json.obj [("sha", Json.str "abc123")]), ""⟩ = false →
        (handler ⟨some "t", some "r", none, none⟩ ⟨"POST", Json.obj [("rooms", Json.num 3)], none⟩
            ⟨emptyResp, ⟨200, "OK", "", some (Json.obj [("sha", Json.str "abc123")]), ""⟩,
             ⟨201, "Created", "", some (Json.obj []), ""⟩⟩ noParse).1.status = 200 ∧
        (handler ⟨some "t", some "r", none, none⟩ ⟨"POST", Json.obj [("rooms", Json.num 3)], none⟩
            ⟨emptyResp, ⟨200, "OK", "", some (Json.obj [("sha", Json.str "abc123")]), ""⟩,
             ⟨201, "Created", "", some (Json.obj []), ""⟩⟩ noParse).2
          = [metaCallOf (some "t") (some "r") none none]) ∧
    (FetchResp.ok ⟨200, "OK", "", some (Json.obj [("sha", Json.str "abc123")]), ""⟩ = true →
        ∀ mj, (some (Json.obj [("sha", Json.str "abc123")]) : Option Json) = some mj →
        ∀ v, mj.getField "sha" = some v → v.truthy = true →
        (handler ⟨some "t", some "r", none, none⟩ ⟨"POST", Json.obj [("rooms", Json.num 3)], none⟩
            ⟨emptyResp, ⟨200, "OK", "", some (Json.obj [("sha", Json.str "abc123")]), ""⟩,
             ⟨201, "Created", "", some (Json.obj []), ""⟩⟩ noParse).2
          = [metaCallOf (some "t") (some "r") none none,
             putCallOf (some "t") (some "r") none none none
               (Json.obj [("rooms", Json.num 3)]) mj] ∧
        (putBody (jsOr none "main") none
            (toBase64 (stringify2 (Json.obj [("rooms", Json.num 3)])))
            (mj.getField "sha")).getField "sha" = some v)) :=
  ⟨by decide, by decide,
   claimC2 (some "t") (some "r") none none (Json.obj [("rooms", Json.num 3)]) none
     emptyResp ⟨200, "OK", "", some (Json.obj [("sha", Json.str "abc123")]), ""⟩
     ⟨201, "Created", "", some (Json.obj []), ""⟩ noParse (by decide) (by decide)⟩

/-- Counterexample to C1 as stated: a POST under valid configuration whose
metadata fetch returns 404 Not Found does not proceed to a PUT — the
handler issues no PUT at all and answers 404. -/
theorem claimC1_counterexample :
    ((handler ⟨some "t", some "r", none, none⟩ ⟨"POST", Json.obj [("rooms", Json.num 3)], none⟩
        w404 noParse).2.any OutCall.isPut) = false ∧
    (handler ⟨some "t", some "r", none, none⟩ ⟨"POST", Json.obj [("rooms", Json.num 3)], none⟩
        w404 noParse).1.status = 404 := by
  constructor <;> rfl

/-- Claim C1 (amended): on POST under valid configuration, when the
metadata fetch returns 404 Not Found the handler responds with status 404
and never issues the outbound PUT (the sha-less first-time-creation write
is unreachable through this branch). -/
theorem claimC1_amended (tok rep fp br : Option String) (body : Json) (qm : Option String)
    (g m p : FetchResp) (parse : String → Option Json)
    (hT : envTruthy tok = true) (hR : envTruthy rep = true) (h404 : m.status = 404) :
    (handler ⟨tok, rep, fp, br⟩ ⟨"POST", body, qm⟩ ⟨g, m, p⟩ parse).1.status = 404 ∧
    (handler ⟨tok, rep, fp, br⟩ ⟨"POST", body, qm⟩ ⟨g, m, p⟩ parse).2
      = [metaCallOf tok rep fp br] := by
  have hok : m.ok = false := by simp [FetchResp.ok, h404]
  rw [handler_post_metaFail hT hR hok]
  exact ⟨h404, rfl⟩

/-- Witness for the amended C1 at a concrete 404 metadata response. -/
theorem claimC1_witness :
    envTruthy (some "t") = true ∧ envTruthy (some "r") = true ∧
    (⟨404, "Not Found", "", some (Json.obj [("message", Json.str "Not Found")]), ""⟩ : FetchResp).status = 404 ∧
    ((handler ⟨some "t", some "r", none, none⟩ ⟨"POST", Json.obj [("rooms", Json.num 3)], none⟩
        w404 noParse).1.status = 404 ∧
     (handler ⟨some "t", some "r", none, none⟩ ⟨"POST", Json.obj [("rooms", Json.num 3)], none⟩
        w404 noParse).2 = [metaCallOf (some "t") (some "r") none none]) :=
  ⟨by decide, by decide, by decide,
   claimC1_amended (some "t") (some "r") none none (Json.obj [("rooms", Json.num 3)]) none
     emptyResp ⟨404, "Not Found", "", some (Json.obj [("message", Json.str "Not Found")]), ""⟩
     emptyResp noParse (by decide) (by decide) (by decide)⟩

/-- Counterexample to C4 as stated: a failed GET whose upstream body is
the text `upstream-payload` is answered with the fixed envelope (label and
statusText); the upstream payload text occurs nowhere in the response
body, so it is not relayed verbatim. -/
theorem claimC4_counterexample :
    FetchResp.ok g404 = false ∧
    (handler ⟨some "t", some "r", none, none⟩ ⟨"GET", Json.null, none⟩
        ⟨g404, emptyResp, emptyResp⟩ noParse).1.body
      = Json.obj [("error", Json.str "GitHub GET failed"), ("status", Json.str "Not Found")] ∧
    Json.containsStrLeaf "upstream-payload"
        (handler ⟨some "t", some "r", none, none⟩ ⟨"GET", Json.null, none⟩
          ⟨g404, emptyResp, emptyResp⟩ noParse).1.body = false := by
  refine ⟨rfl, rfl, rfl⟩

/-- Claim C4 (amended): for a failed GET fetch, and for a failed POST
metadata fetch, the handler relays the upstream status code unchanged in a
fixed error envelope that carries the upstream statusText (the upstream
response body is not read), and does not retry: the failing call is the
only outbound call and no PUT follows a failed metadata fetch. -/
theorem claimC4_amended (tok rep fp br : Option String) (body : Json) (qm : Option String)
    (g m p : FetchResp) (parse : String → Option Json)
    (hT : envTruthy tok = true) (hR : envTruthy rep = true) :
    (g.ok = false →
      handler ⟨tok, rep, fp, br⟩ ⟨"GET", body, qm⟩ ⟨g, m, p⟩ parse =
        (⟨g.status, Json.obj [("error", Json.str "GitHub GET failed"),
            ("status", Json.str g.statusText)], []⟩,
         [OutCall.getRaw (apiBase (rep.getD "") (jsOr fp "data.json") (jsOr br "main"))
            (rawAcceptHeaders (tok.getD ""))])) ∧
    (m.ok = false →
      handler ⟨tok, rep, fp, br⟩ ⟨"POST", body, qm⟩ ⟨g, m, p⟩ parse =
        (⟨m.status, Json.obj [("error", Json.str "Could not fetch file metadata"),
            ("status", Json.str m.statusText)], []⟩,
         [metaCallOf tok rep fp br])) := by
  constructor
  · intro hok
    simp [handler, hT, hR, hok]
  · intro hok
    exact handler_post_metaFail hT hR hok

/-- Witness for the amended C4 at concrete failing upstream responses. -/
theorem claimC4_witness :
    envTruthy (some "t") = true ∧ envTruthy (some "r") = true ∧
    ((FetchResp.ok g404 = false →
      handler ⟨some "t", some "r", none, none⟩ ⟨"GET", Json.null, none⟩
          ⟨g404, g404, emptyResp⟩ noParse =
        (⟨g404.status, Json.obj [("error", Json.str "GitHub GET failed"),
            ("status", Json.str g404.statusText)], []⟩,
         [OutCall.getRaw (apiBase ((some "r").getD "") (jsOr none "data.json") (jsOr none "main"))
            (rawAcceptHeaders ((some "t").getD ""))])) ∧
     (FetchResp.ok g404 = false →
      handler ⟨some "t", some "r", none, none⟩ ⟨"POST", Json.null, none⟩
          ⟨g404, g404, emptyResp⟩ noParse =
        (⟨g404.status, Json.obj [("error", Json.str "Could not fetch file metadata"),
            ("status", Json.str g404.statusText)], []⟩,
         [metaCallOf (some "t") (some "r") none none]))) :=
  ⟨by decide, by decide,
   claimC4_amended (some "t") (some "r") none none Json.null none
     g404 g404 emptyResp noParse (by decide) (by decide)⟩

/-- Claim C6: a POST of the body with single field `rooms` holding 3, when
the metadata fetch succeeds with revision token `abc123`, issues a PUT
whose `content` base64-decodes to the pretty-printed two-space-indented
text and whose body carries `sha` equal to `abc123`. -/
theorem claimC6 (tok rep fp br : Option String) (qm : Option String)
    (g m p : FetchResp) (parse : String → Option Json) (mj : Json)
    (hT : envTruthy tok = true) (hR : envTruthy rep = true)
    (hok : m.ok = true) (hj : m.json = some mj)
    (hsha : mj.getField "sha" = some (Json.str "abc123")) :
    (handler ⟨tok, rep, fp, br⟩ ⟨"POST", Json.obj [("rooms", Json.num 3)], qm⟩
        ⟨g, m, p⟩ parse).2
      = [metaCallOf tok rep fp br,
         putCallOf tok rep fp br qm (Json.obj [("rooms", Json.num 3)]) mj] ∧
    (putBody (jsOr br "main") qm (toBase64 (stringify2 (Json.obj [("rooms", Json.num 3)])))
        (mj.getField "sha")).getField "content"
      = some (Json.str "ewogICJyb29tcyI6IDMKfQ==") ∧
    b64Decode "ewogICJyb29tcyI6IDMKfQ==" = some (utf8Bytes "\x7b\n  \"rooms\": 3\n\x7d") ∧
    (putBody (jsOr br "main") qm (toBase64 (stringify2 (Json.obj [("rooms", Json.num 3)])))
        (mj.getField "sha")).getField "sha"
      = some (Json.str "abc123") := by
  refine ⟨handler_post_calls_metaOk hT hR hok hj, ?_, by decide, ?_⟩
  · rw [hsha, putBody_getField_content]
    rfl
  · rw [hsha]
    rfl

/-- Witness for C6 at the concrete world `wOK`. -/
theorem claimC6_witness :
    envTruthy (some "t") = true ∧ envTruthy (some "r") = true ∧
    FetchResp.ok ⟨200, "OK", "", some (Json.obj [("sha", Json.str "abc123")]), ""⟩ = true ∧
    (Json.obj [("sha", Json.str "abc123")]).getField "sha" = some (Json.str "abc123") ∧
    ((handler ⟨some "t", some "r", none, none⟩ ⟨"POST", Json.obj [("rooms", Json.num 3)], none⟩
        wOK noParse).2
      = [metaCallOf (some "t") (some "r") none none,
         putCallOf (some "t") (some "r") none none none (Json.obj [("rooms", Json.num 3)])
           (Json.obj [("sha", Json.str "abc123")])] ∧
    (putBody (jsOr none "main") none
        (toBase64 (stringify2 (Json.obj [("rooms", Json.num 3)])))
        ((Json.obj [("sha", Json.str "abc123")]).getField "sha")).getField "content"
      = some (Json.str "ewogICJyb29tcyI6IDMKfQ==") ∧
    b64Decode "ewogICJyb29tcyI6IDMKfQ==" = some (utf8Bytes "\x7b\n  \"rooms\": 3\n\x7d") ∧
    (putBody (jsOr none "main") none
        (toBase64 (stringify2 (Json.obj [("rooms", Json.num 3)])))
        ((Json.obj [("sha", Json.str "abc123")]).getField "sha")).getField "sha"
      = some (Json.str "abc123")) :=
  ⟨by decide, by decide, by decide, rfl,
   claimC6 (some "t") (some "r") none none none emptyResp
     ⟨200, "OK", "", some (Json.obj [("sha", Json.str "abc123")]), ""⟩
     ⟨200, "OK", "", some (Json.obj []), ""⟩ noParse (Json.obj [("sha", Json.str "abc123")])
     (by decide) (by decide) (by decide) rfl rfl⟩

/-- Claim C7: once the outbound PUT is issued (metadata fetch succeeded
with JSON) and its response body parses, a non-success PUT is answered
with the PUT status and the parsed upstream error body, and a successful
PUT with status 200, a confirmation message and the remote result
payload. -/
theorem claimC7 (tok rep fp br : Option String) (body : Json) (qm : Option String)
    (g m p : FetchResp) (parse : String → Option Json) (mj j : Json)
    (hT : envTruthy tok = true) (hR : envTruthy rep = true)
    (hok : m.ok = true) (hj : m.json = some mj) (hpj : p.json = some j) :
    (p.ok = false →
        (handler ⟨tok, rep, fp, br⟩ ⟨"POST", body, qm⟩ ⟨g, m, p⟩ parse).1
          = ⟨p.status, Json.obj [("error", Json.str "GitHub PUT failed"), ("detail", j)], []⟩) ∧
    (p.ok = true →
        (handler ⟨tok, rep, fp, br⟩ ⟨"POST", body, qm⟩ ⟨g, m, p⟩ parse).1
          = ⟨200, Json.obj [("message", Json.str "âœ… Data saved to GitHub"), ("result", j)], []⟩) := by
  constructor <;> intro hpok <;>
    rw [handler_post_putResult hT hR hok hj hpj] <;> simp [hpok]

/-- Witness for C7 at a concrete rejected PUT (409 Conflict). -/
theorem claimC7_witness :
    envTruthy (some "t") = true ∧ envTruthy (some "r") = true ∧
    FetchResp.ok ⟨200, "OK", "", some (Json.obj [("sha", Json.str "abc123")]), ""⟩ = true ∧
    ((FetchResp.ok ⟨409, "Conflict", "", some (Json.obj [("message", Json.str "sha mismatch")]), ""⟩ = false →
        (handler ⟨some "t", some "r", none, none⟩ ⟨"POST", Json.null, none⟩
            ⟨emptyResp, ⟨200, "OK", "", some (Json.obj [("sha", Json.str "abc123")]), ""⟩,
             ⟨409, "Conflict", "", some (Json.obj [("message", Json.str "sha mismatch")]), ""⟩⟩
            noParse).1
          = ⟨409, Json.obj [("error", Json.str "GitHub PUT failed"),
              ("detail", Json.obj [("message", Json.str "sha mismatch")])], []⟩) ∧
     (FetchResp.ok ⟨409, "Conflict", "", some (Json.obj [("message", Json.str "sha mismatch")]), ""⟩ = true →
        (handler ⟨some "t", some "r", none, none⟩ ⟨"POST", Json.null, none⟩
            ⟨emptyResp, ⟨200, "OK", "", some (Json.obj [("sha", Json.str "abc123")]), ""⟩,
             ⟨409, "Conflict", "", some (Json.obj [("message", Json.str "sha mismatch")]), ""⟩⟩
            noParse).1
          = ⟨200, Json.obj [("message", Json.str "âœ… Data saved to GitHub"),
              ("result", Json.obj [("message", Json.str "sha mismatch")])], []⟩)) :=
  ⟨by decide, by decide, by decide,
   claimC7 (some "t") (some "r") none none Json.null none emptyResp
     ⟨200, "OK", "", some (Json.obj [("sha", Json.str "abc123")]), ""⟩
     ⟨409, "Conflict", "", some (Json.obj [("message", Json.str "sha mismatch")]), ""⟩
     noParse (Json.obj [("sha", Json.str "abc123")]) (Json.obj [("message", Json.str "sha mismatch")])
     (by decide) (by decide) (by decide) rfl rfl⟩

/-- Counterexample to C8 as stated: a supplied but empty `message` query
parameter is falsy, so the issued PUT carries the default commit message
rather than the supplied empty string. -/
theorem claimC8_counterexample :
    (handler ⟨some "t", some "r", none, none⟩ ⟨"POST", Json.null, some ""⟩ wOK noParse).2.any
        (putMessageIs "") = false ∧
    (handler ⟨some "t", some "r", none, none⟩ ⟨"POST", Json.null, some ""⟩ wOK noParse).2.any
        (putMessageIs "Update data.json via app") = true := by
  constructor <;> rfl

/-- Claim C8 (amended): once the PUT is issued, its body's commit message
equals the `message` query parameter when that parameter is supplied and
non-empty (truthy), and the default `Update data.json via app` when the
parameter is absent or empty; the body always carries the base64 content
and the configured target branch. -/
theorem claimC8_amended (tok rep fp br : Option String) (body : Json) (qm : Option String)
    (g m p : FetchResp) (parse : String → Option Json) (mj : Json)
    (hT : envTruthy tok = true) (hR : envTruthy rep = true)
    (hok : m.ok = true) (hj : m.json = some mj) :
    (handler ⟨tok, rep, fp, br⟩ ⟨"POST", body, qm⟩ ⟨g, m, p⟩ parse).2
      = [metaCallOf tok rep fp br, putCallOf tok rep fp br qm body mj] ∧
    (∀ s, qm = some s → s ≠ "" →
      (putBody (jsOr br "main") qm (toBase64 (stringify2 body)) (mj.getField "sha")).getField "message"
        = some (Json.str s)) ∧
    (qm = none ∨ qm = some "" →
      (putBody (jsOr br "main") qm (toBase64 (stringify2 body)) (mj.getField "sha")).getField "message"
        = some (Json.str "Update data.json via app")) ∧
    (putBody (jsOr br "main") qm (toBase64 (stringify2 body)) (mj.getField "sha")).getField "content"
      = some (Json.str (toBase64 (stringify2 body))) ∧
    (putBody (jsOr br "main") qm (toBase64 (stringify2 body)) (mj.getField "sha")).getField "branch"
      = some (Json.str (jsOr br "main")) := by
  refine ⟨handler_post_calls_metaOk hT hR hok hj, ?_, ?_,
    putBody_getField_content _ _ _ _, putBody_getField_branch _ _ _ _⟩
  · intro s hs hne
    rw [putBody_getField_message, hs]
    simp [jsOr, hne]
  · intro h
    rcases h with h | h <;> rw [putBody_getField_message, h] <;> simp [jsOr]

/-- Witness for the amended C8 with a supplied non-empty message. -/
theorem claimC8_witness :
    envTruthy (some "t") = true ∧ envTruthy (some "r") = true ∧
    FetchResp.ok ⟨200, "OK", "", some (Json.obj [("sha", Json.str "abc123")]), ""⟩ = true ∧
    ((handler ⟨some "t", some "r", none, none⟩ ⟨"POST", Json.null, some "my commit"⟩ wOK noParse).2
      = [metaCallOf (some "t") (some "r") none none,
         putCallOf (some "t") (some "r") none none (some "my commit") Json.null
           (Json.obj [("sha", Json.str "abc123")])] ∧
    (∀ s, (some "my commit" : Option String) = some s → s ≠ "" →
      (putBody (jsOr none "main") (some "my commit") (toBase64 (stringify2 Json.null))
          ((Json.obj [("sha", Json.str "abc123")]).getField "sha")).getField "message"
        = some (Json.str s)) ∧
    ((some "my commit" : Option String) = none ∨ (some "my commit" : Option String) = some "" →
      (putBody (jsOr none "main") (some "my commit") (toBase64 (stringify2 Json.null))
          ((Json.obj [("sha", Json.str "abc123")]).getField "sha")).getField "message"
        = some (Json.str "Update data.json via app")) ∧
    (putBody (jsOr none "main") (some "my commit") (toBase64 (stringify2 Json.null))
        ((Json.obj [("sha", Json.str "abc123")]).getField "sha")).getField "content"
      = some (Json.str (toBase64 (stringify2 Json.null))) ∧
    (putBody (jsOr none "main") (some "my commit") (toBase64 (stringify2 Json.null))
        ((Json.obj [("sha", Json.str "abc123")]).getField "sha")).getField "branch"
      = some (Json.str (jsOr none "main"))) :=
  ⟨by decide, by decide, by decide,
   claimC8_amended (some "t") (some "r") none none Json.null (some "my commit")
     emptyResp ⟨200, "OK", "", some (Json.obj [("sha", Json.str "abc123")]), ""⟩
     ⟨200, "OK", "", some (Json.obj []), ""⟩ noParse (Json.obj [("sha", Json.str "abc123")])
     (by decide) (by decide) (by decide) rfl⟩

/-- Claim C10: when the metadata fetch succeeds and its body parses as
`mj`, the PUT is issued and its body's `sha` field equals the metadata
`sha` when that value is truthy and is absent otherwise (in particular a
missing or falsy `sha` yields a PUT body with no `sha` field). -/
theorem claimC10 (tok rep fp br : Option String) (body : Json) (qm : Option String)
    (g m p : FetchResp) (parse : String → Option Json) (mj : Json)
    (hT : envTruthy tok = true) (hR : envTruthy rep = true)
    (hok : m.ok = true) (hj : m.json = some mj) :
    (handler ⟨tok, rep, fp, br⟩ ⟨"POST", body, qm⟩ ⟨g, m, p⟩ parse).2
      = [metaCallOf tok rep fp br, putCallOf tok rep fp br qm body mj] ∧
    (putBody (jsOr br "main") qm (toBase64 (stringify2 body)) (mj.getField "sha")).getField "sha"
      = (if jsTruthyOpt (mj.getField "sha") then mj.getField "sha" else none) := by
  refine ⟨handler_post_calls_metaOk hT hR hok hj, ?_⟩
  rw [putBody_getField_sha]
  cases hs : mj.getField "sha" with
  | none => simp [jsTruthyOpt]
  | some v => cases htr : v.truthy <;> simp [jsTruthyOpt, htr]

/-- Witness for C10 at a successful metadata response whose JSON lacks a
`sha` field: the PUT body carries no `sha`. -/
theorem claimC10_witness :
    envTruthy (some "t") = true ∧ envTruthy (some "r") = true ∧
    FetchResp.ok ⟨200, "OK", "", some (Json.obj []), ""⟩ = true ∧
    ((handler ⟨some "t", some "r", none, none⟩ ⟨"POST", Json.null, none⟩
        ⟨emptyResp, ⟨200, "OK", "", some (Json.obj []), ""⟩,
         ⟨200, "OK", "", some (Json.obj []), ""⟩⟩ noParse).2
      = [metaCallOf (some "t") (some "r") none none,
         putCallOf (some "t") (some "r") none none none Json.null (Json.obj [])] ∧
    (putBody (jsOr none "main") none (toBase64 (stringify2 Json.null))
        ((Json.obj []).getField "sha")).getField "sha"
      = (if jsTruthyOpt ((Json.obj []).getField "sha") then (Json.obj []).getField "sha" else none)) :=
  ⟨by decide, by decide, by decide,
   claimC10 (some "t") (some "r") none none Json.null none emptyResp
     ⟨200, "OK", "", some (Json.obj []), ""⟩ ⟨200, "OK", "", some (Json.obj []), ""⟩
     noParse (Json.obj []) (by decide) (by decide) (by decide) rfl⟩
